import Mathlib

/-!
Shallow embedding of the Solana hello-world program
(`src/program-rust/src/lib.rs`) and proofs about its specification.

Pubkeys are modelled as natural numbers (a 32-byte public key read as a
number); the system program id `11111111111111111111111111111111` is the
all-zero key, i.e. `0`.  Account data buffers are lists of byte values.
The host's `invoke` of a system transfer is modelled as an oracle
`host : Transfer → Except ProgramError Unit` supplied per call: the core
only requests the balance movement and the host may reject it.
The u32 counter is a `Nat` reduced modulo `2^32` where the source's
release-mode wrapping arithmetic matters.
-/

namespace HelloWorld

/-- The error kinds surfaced by the program (a fragment of
`solana_program::program_error::ProgramError`). `BorshIoError` stands for
the deserialization failure bubbled up from `try_from_slice`. -/
inductive ProgramError where
  | NotEnoughAccountKeys
  | MissingRequiredSignature
  | IncorrectProgramId
  | InvalidInstructionData
  | BorshIoError
  | Custom (code : Nat)
deriving DecidableEq, Repr

/-- The slice of `AccountInfo` the program reads: key, signer flag,
lamport balance, data buffer and owner. -/
structure AccountInfo where
  key : Nat
  is_signer : Bool
  lamports : Nat
  data : List Nat
  owner : Nat
deriving DecidableEq, Repr

/-- One host-mediated transfer request built by
`system_instruction::transfer(from, to, lamports)`. -/
structure Transfer where
  source : Nat
  dest : Nat
  lamports : Nat
deriving DecidableEq, Repr

/-- `solana_program::system_program::ID`, the all-zero pubkey. -/
def SYSTEM_PROGRAM_ID : Nat := 0

/-- Borsh serialization of `GreetingAccount { counter: u32 }`: the four
little-endian bytes of the counter. -/
def u32ToLeBytes (c : Nat) : List Nat :=
  [c % 256, c / 256 % 256, c / 65536 % 256, c / 16777216 % 256]

/-- `GreetingAccount::try_from_slice`: borsh requires exactly the four
bytes of the u32 counter and rejects any other buffer length. -/
def greetingTryFromSlice (bs : List Nat) : Option Nat :=
  match bs with
  | [b0, b1, b2, b3] => some (b0 + 256 * b1 + 65536 * b2 + 16777216 * b3)
  | _ => none

/-- The outcome of one call: the returned `ProgramResult`, the list of
transfer requests issued to the host (in order), and the account list
after the call (data mutations applied). -/
abbrev Outcome := Except ProgramError Unit × List Transfer × List AccountInfo

/-- Embedding of `process_instruction` from `lib.rs`.  Mirrors the source
line by line: four `next_account_info` extractions (failing with
`NotEnoughAccountKeys`), the payer signer check, the program-account
owner check, the system-account identity check, the fixed-amount transfer
via `invoke` (the `host` oracle), then deserialize / increment /
re-serialize of the greeting counter.  `instruction_data` is unused by
the source. -/
def process_instruction (program_id : Nat) (accounts : List AccountInfo)
    (instruction_data : List Nat)
    (host : Transfer → Except ProgramError Unit) : Outcome :=
  match accounts with
  | payer :: receiver :: program_acct :: system_acct :: rest =>
    if payer.is_signer = false then
      (Except.error ProgramError.MissingRequiredSignature, [], accounts)
    else if program_acct.owner ≠ program_id then
      (Except.error ProgramError.IncorrectProgramId, [], accounts)
    else if system_acct.key ≠ SYSTEM_PROGRAM_ID then
      (Except.error ProgramError.IncorrectProgramId, [], accounts)
    else
      let t : Transfer := ⟨payer.key, receiver.key, 1000000000⟩
      match host t with
      | Except.error e => (Except.error e, [t], accounts)
      | Except.ok _ =>
        match greetingTryFromSlice program_acct.data with
        | none => (Except.error ProgramError.BorshIoError, [t], accounts)
        | some c =>
          (Except.ok (), [t],
            payer :: receiver ::
              { program_acct with data := u32ToLeBytes ((c + 1) % 4294967296) } ::
              system_acct :: rest)
  | _ => (Except.error ProgramError.NotEnoughAccountKeys, [], accounts)

/-- Project the greeted account's data buffer out of an outcome,
propagating the call's error. -/
def progDataAfter (o : Outcome) : Except ProgramError (List Nat) :=
  match o with
  | (Except.error e, _, _) => Except.error e
  | (Except.ok _, _, accs) =>
    match accs[2]? with
    | some a => Except.ok a.data
    | none => Except.error ProgramError.NotEnoughAccountKeys

/-- Run `k` consecutive greeting calls, threading the greeted account's
data buffer from call to call (the host ledger persists it between
calls); stops at the first failing call. -/
def runGreetings (program_id : Nat) (payer receiver system_acct : AccountInfo)
    (progKey progLamports : Nat)
    (host : Transfer → Except ProgramError Unit) :
    Nat → List Nat → Except ProgramError (List Nat)
  | 0, d => Except.ok d
  | k + 1, d =>
    match progDataAfter (process_instruction program_id
        [payer, receiver, ⟨progKey, false, progLamports, d, program_id⟩, system_acct]
        [] host) with
    | Except.ok d2 =>
        runGreetings program_id payer receiver system_acct progKey progLamports host k d2
    | Except.error e => Except.error e

/-- Modelled from the spec: the split-variant instruction decoder
(spec §4.2, and the commented-out snippet at `lib.rs:61-67`).  The amount
is the unsigned 64-bit value read little-endian from bytes `[0,8)` of the
payload; fewer than 8 bytes is a decode failure.  The split variant
itself is absent from the repository source. -/
def decode_amount (d : List Nat) : Option Nat :=
  match d with
  | b0 :: b1 :: b2 :: b3 :: b4 :: b5 :: b6 :: b7 :: _ =>
    some (b0 + 256 * b1 + 65536 * b2 + 16777216 * b3 +
      4294967296 * b4 + 1099511627776 * b5 +
      281474976710656 * b6 + 72057594037927936 * b7)
  | _ => none

/-- Modelled from the spec: the split-variant transfer executor
(spec §4.3), absent from the repository source.  One host-mediated
transfer request per payee, in list order, each for the same amount; a
host rejection aborts the sequence with no further requests. -/
def execTransfers (src : Nat) (dests : List Nat) (amt : Nat)
    (host : Transfer → Except ProgramError Unit) :
    Except ProgramError Unit × List Transfer :=
  match dests with
  | [] => (Except.ok (), [])
  | dk :: rest =>
    let t : Transfer := ⟨src, dk, amt⟩
    match host t with
    | Except.error e => (Except.error e, [t])
    | Except.ok _ =>
      let o := execTransfers src rest amt host
      (o.1, t :: o.2)

/-- Modelled from the spec: the split variant of the call (spec §3, §4),
absent from the repository source.  Stage order follows the spec's call
state machine `Decode → Validate → Execute` (§4.4): decode the amount
(`InvalidInstructionData` on a short payload); validate the account list
`[payer, system, payee₁ … payeeₙ]` — payer signer flag
(`MissingRequiredSignature`), system-account identity
(`IncorrectProgramId`), payee count `1 ≤ n ≤ 10`
(`NotEnoughAccountKeys`, also used for a missing payer or system slot);
execute one transfer of `amount / n` per payee in list order.  The split
variant writes no account data. -/
def process_split (accounts : List AccountInfo) (instruction_data : List Nat)
    (host : Transfer → Except ProgramError Unit) :
    Except ProgramError Unit × List Transfer :=
  match decode_amount instruction_data with
  | none => (Except.error ProgramError.InvalidInstructionData, [])
  | some amount =>
    match accounts with
    | payer :: system_acct :: payees =>
      if payer.is_signer = false then
        (Except.error ProgramError.MissingRequiredSignature, [])
      else if system_acct.key ≠ SYSTEM_PROGRAM_ID then
        (Except.error ProgramError.IncorrectProgramId, [])
      else if payees.length < 1 ∨ 10 < payees.length then
        (Except.error ProgramError.NotEnoughAccountKeys, [])
      else
        execTransfers payer.key (payees.map AccountInfo.key)
          (amount / payees.length) host
    | _ => (Except.error ProgramError.NotEnoughAccountKeys, [])

/-- A host oracle that accepts every transfer request. -/
def acceptAll : Transfer → Except ProgramError Unit := fun _ => Except.ok ()

/-- A concrete signing payer account. -/
def payerEx : AccountInfo := ⟨10, true, 5000000000, [], 0⟩

/-- A concrete receiver account. -/
def recvEx : AccountInfo := ⟨11, false, 0, [], 0⟩

/-- A concrete system-program account (key `SYSTEM_PROGRAM_ID`). -/
def sysEx : AccountInfo := ⟨0, false, 1, [], 0⟩

theorem decode_encode (c : Nat) :
    greetingTryFromSlice (u32ToLeBytes c) = some (c % 4294967296) := by
  simp only [u32ToLeBytes, greetingTryFromSlice, Option.some.injEq]
  omega

theorem u32ToLeBytes_mod (c : Nat) :
    u32ToLeBytes (c % 4294967296) = u32ToLeBytes c := by
  simp only [u32ToLeBytes, List.cons.injEq, and_true]
  refine ⟨by omega, by omega, by omega, by omega⟩

theorem process_ok_step (pid : Nat) (payer receiver system_acct : AccountInfo)
    (progKey progLamports c : Nat) (d : List Nat)
    (host : Transfer → Except ProgramError Unit)
    (hsig : payer.is_signer = true) (hsys : system_acct.key = SYSTEM_PROGRAM_ID)
    (hhost : ∀ t, host t = Except.ok ()) :
    process_instruction pid
        [payer, receiver, ⟨progKey, false, progLamports, u32ToLeBytes c, pid⟩, system_acct]
        d host =
      (Except.ok (), [⟨payer.key, receiver.key, 1000000000⟩],
        [payer, receiver,
          ⟨progKey, false, progLamports, u32ToLeBytes ((c + 1) % 4294967296), pid⟩,
          system_acct]) := by
  simp [process_instruction, hsig, hsys, hhost, decode_encode]

theorem runGreetings_ok (pid : Nat) (payer receiver system_acct : AccountInfo)
    (progKey progLamports : Nat) (host : Transfer → Except ProgramError Unit)
    (hsig : payer.is_signer = true) (hsys : system_acct.key = SYSTEM_PROGRAM_ID)
    (hhost : ∀ t, host t = Except.ok ()) :
    ∀ k c, runGreetings pid payer receiver system_acct progKey progLamports host
        k (u32ToLeBytes c) =
      Except.ok (u32ToLeBytes ((c + k) % 4294967296))
  | 0, c => by
      simp [runGreetings, u32ToLeBytes_mod]
  | k + 1, c => by
      rw [runGreetings, process_ok_step pid payer receiver system_acct progKey
        progLamports c [] host hsig hsys hhost]
      have hp : progDataAfter
          (Except.ok (), [⟨payer.key, receiver.key, 1000000000⟩],
            [payer, receiver,
              ⟨progKey, false, progLamports, u32ToLeBytes ((c + 1) % 4294967296), pid⟩,
              system_acct]) =
          Except.ok (u32ToLeBytes (c + 1)) := by
        simp [progDataAfter, u32ToLeBytes_mod]
      rw [hp]
      show runGreetings pid payer receiver system_acct progKey progLamports host k
          (u32ToLeBytes (c + 1)) =
        Except.ok (u32ToLeBytes ((c + (k + 1)) % 4294967296))
      have hca : c + (k + 1) = c + 1 + k := by omega
      rw [hca, runGreetings_ok pid payer receiver system_acct progKey progLamports host
        hsig hsys hhost k (c + 1)]

theorem greetingTryFromSlice_wrong_length (bs : List Nat) (h : bs.length ≠ 4) :
    greetingTryFromSlice bs = none :=
  match bs, h with
  | [], _ => rfl
  | [_], _ => rfl
  | [_, _], _ => rfl
  | [_, _, _], _ => rfl
  | [_, _, _, _], h => absurd rfl h
  | _ :: _ :: _ :: _ :: _ :: _, _ => rfl

theorem decode_amount_short (d : List Nat) (h : d.length < 8) :
    decode_amount d = none :=
  match d, h with
  | [], _ => rfl
  | [_], _ => rfl
  | [_, _], _ => rfl
  | [_, _, _], _ => rfl
  | [_, _, _, _], _ => rfl
  | [_, _, _, _, _], _ => rfl
  | [_, _, _, _, _, _], _ => rfl
  | [_, _, _, _, _, _, _], _ => rfl
  | _ :: _ :: _ :: _ :: _ :: _ :: _ :: _ :: _, h => by
      exfalso
      simp only [List.length_cons] at h
      omega

theorem execTransfers_accepted (src amt : Nat)
    (host : Transfer → Except ProgramError Unit)
    (hhost : ∀ t, host t = Except.ok ()) :
    ∀ dests : List Nat, execTransfers src dests amt host =
      (Except.ok (), dests.map (fun dk => ⟨src, dk, amt⟩))
  | [] => by simp [execTransfers]
  | dk :: rest => by
      simp [execTransfers, hhost, execTransfers_accepted src amt host hhost rest]

theorem sum_map_const {α : Type} (l : List α) (a : Nat) :
    (l.map (fun _ => a)).sum = l.length * a := by
  induction l with
  | nil => simp
  | cons x xs ih => simp [ih]; ring

/-- Claim C1 (amended): a successful greeting call sets the stored
counter to `(old + 1) mod 2^32`; whenever `old + 1 < 2^32` this is an
increase by exactly 1, and `k` successful calls on an initially zeroed
counter account yield counter `k` for every `k < 2^32`.  (At the 32-bit
boundary the release-mode `counter += 1` wraps to 0, so the unqualified
monotonicity in the original claim fails; see the counterexample.) -/
theorem greeting_counter_per_call_and_sequence (pid : Nat)
    (payer receiver system_acct : AccountInfo) (progKey progLamports : Nat)
    (host : Transfer → Except ProgramError Unit)
    (hsig : payer.is_signer = true) (hsys : system_acct.key = SYSTEM_PROGRAM_ID)
    (hhost : ∀ t, host t = Except.ok ()) :
    (∀ c : Nat, c + 1 < 4294967296 →
      progDataAfter (process_instruction pid
          [payer, receiver, ⟨progKey, false, progLamports, u32ToLeBytes c, pid⟩,
            system_acct] [] host) =
        Except.ok (u32ToLeBytes (c + 1))) ∧
    (∀ k : Nat, k < 4294967296 →
      runGreetings pid payer receiver system_acct progKey progLamports host
          k (u32ToLeBytes 0) = Except.ok (u32ToLeBytes k)) := by
  constructor
  · intro c hc
    rw [process_ok_step pid payer receiver system_acct progKey progLamports c []
      host hsig hsys hhost]
    simp [progDataAfter, Nat.mod_eq_of_lt hc]
  · intro k hk
    rw [runGreetings_ok pid payer receiver system_acct progKey progLamports host
      hsig hsys hhost k 0]
    simp [Nat.mod_eq_of_lt hk]

/-- Concrete instance of claim C1's amended statement: three successful
greeting calls on a zeroed counter account leave the counter at 3. -/
theorem greeting_counter_sequence_witness :
    runGreetings 1 payerEx recvEx sysEx 2 0 acceptAll 3 (u32ToLeBytes 0) =
      Except.ok (u32ToLeBytes 3) :=
  (greeting_counter_per_call_and_sequence 1 payerEx recvEx sysEx 2 0 acceptAll
    rfl rfl (fun _ => rfl)).2 3 (by norm_num)

/-- Counterexample to claim C1 as stated: a successful greeting call on
a counter holding `2^32 - 1` stores 0, so the counter is decremented
(reset) by a successful call and `counter = k` fails at `k = 2^32`. -/
theorem greeting_counter_wrap_counterexample :
    (process_instruction 1
        [payerEx, recvEx, ⟨2, false, 0, u32ToLeBytes 4294967295, 1⟩, sysEx]
        [] acceptAll).1 = Except.ok () ∧
    greetingTryFromSlice (u32ToLeBytes 4294967295) = some 4294967295 ∧
    progDataAfter (process_instruction 1
        [payerEx, recvEx, ⟨2, false, 0, u32ToLeBytes 4294967295, 1⟩, sysEx]
        [] acceptAll) = Except.ok (u32ToLeBytes 0) ∧
    greetingTryFromSlice (u32ToLeBytes 0) = some 0 ∧ 0 < 4294967295 :=
  ⟨rfl, rfl, rfl, rfl, by norm_num⟩

/-- Claim C4 (amended): for every call supplying at least four accounts
whose payer's signer flag is false, the call aborts with
`MissingRequiredSignature` irrespective of every other account, payload
and host response — no owner or system-account check outcome matters, no
transfer is requested and no account is changed.  (With fewer than four
accounts the account extraction aborts first with
`NotEnoughAccountKeys`; see the counterexample.) -/
theorem nonsigner_payer_aborts_first (pid : Nat)
    (payer receiver program_acct system_acct : AccountInfo)
    (rest : List AccountInfo) (d : List Nat)
    (host : Transfer → Except ProgramError Unit)
    (h : payer.is_signer = false) :
    process_instruction pid
        (payer :: receiver :: program_acct :: system_acct :: rest) d host =
      (Except.error ProgramError.MissingRequiredSignature, [],
        payer :: receiver :: program_acct :: system_acct :: rest) := by
  simp [process_instruction, h]

/-- Concrete instance of claim C4's amended statement: a four-account
call with a non-signing payer aborts with `MissingRequiredSignature`. -/
theorem nonsigner_payer_aborts_first_witness :
    process_instruction 1 [recvEx, payerEx, recvEx, sysEx] [] acceptAll =
      (Except.error ProgramError.MissingRequiredSignature, [],
        [recvEx, payerEx, recvEx, sysEx]) :=
  nonsigner_payer_aborts_first 1 recvEx payerEx recvEx sysEx [] [] acceptAll rfl

/-- Counterexample to claim C4 as stated: a one-account call whose payer
does not sign aborts with `NotEnoughAccountKeys` (raised while
extracting the remaining accounts), not `MissingRequiredSignature`, so
the signer check is not the first check on every call. -/
theorem nonsigner_payer_counterexample :
    (process_instruction 1 [⟨10, false, 0, [], 0⟩] [] acceptAll).1 =
      Except.error ProgramError.NotEnoughAccountKeys ∧
    ProgramError.NotEnoughAccountKeys ≠ ProgramError.MissingRequiredSignature ∧
    AccountInfo.is_signer ⟨10, false, 0, [], 0⟩ = false :=
  ⟨rfl, by decide, rfl⟩

/-- Claim C5: every successful call requests exactly one transfer, from
the payer (first account) to the receiver (second account), of the fixed
amount 1,000,000,000 lamports, for every payload. -/
theorem greeting_single_fixed_transfer (pid : Nat)
    (payer receiver program_acct system_acct : AccountInfo)
    (rest : List AccountInfo) (d : List Nat)
    (host : Transfer → Except ProgramError Unit)
    (h : (process_instruction pid
        (payer :: receiver :: program_acct :: system_acct :: rest) d host).1 =
      Except.ok ()) :
    (process_instruction pid
        (payer :: receiver :: program_acct :: system_acct :: rest) d host).2.1 =
      [⟨payer.key, receiver.key, 1000000000⟩] := by
  by_cases h1 : payer.is_signer = false
  · simp [process_instruction, h1] at h
  · by_cases h2 : program_acct.owner = pid
    · by_cases h3 : system_acct.key = SYSTEM_PROGRAM_ID
      · rcases hh : host ⟨payer.key, receiver.key, 1000000000⟩ with e | u
        · simp [process_instruction, h1, h2, h3, hh] at h
        · rcases hg : greetingTryFromSlice program_acct.data with _ | c
          · simp [process_instruction, h1, h2, h3, hh, hg] at h
          · simp [process_instruction, h1, h2, h3, hh, hg]
      · simp [process_instruction, h1, h3] at h
    · simp [process_instruction, h1, h2] at h

/-- Concrete instance of claim C5: a successful greeting call requests
the single fixed transfer of 1,000,000,000 lamports payer → receiver. -/
theorem greeting_single_fixed_transfer_witness :
    (process_instruction 1
        [payerEx, recvEx, ⟨2, false, 0, u32ToLeBytes 0, 1⟩, sysEx]
        [] acceptAll).2.1 = [⟨10, 11, 1000000000⟩] :=
  greeting_single_fixed_transfer 1 payerEx recvEx ⟨2, false, 0, u32ToLeBytes 0, 1⟩
    sysEx [] [] acceptAll rfl

/-- Claim C7 (amended): for every call with at least four accounts and a
signing payer, a system-account slot whose key differs from the system
program id makes the call abort with `IncorrectProgramId` (whether via
the owner check or the system-account check, the returned error is
`IncorrectProgramId`).  (A non-signing payer aborts earlier with
`MissingRequiredSignature`; see the counterexample.) -/
theorem system_account_mismatch_aborts (pid : Nat)
    (payer receiver program_acct system_acct : AccountInfo)
    (rest : List AccountInfo) (d : List Nat)
    (host : Transfer → Except ProgramError Unit)
    (hsig : payer.is_signer = true)
    (hsys : system_acct.key ≠ SYSTEM_PROGRAM_ID) :
    (process_instruction pid
        (payer :: receiver :: program_acct :: system_acct :: rest) d host).1 =
      Except.error ProgramError.IncorrectProgramId := by
  by_cases hown : program_acct.owner = pid
  · simp [process_instruction, hsig, hown, hsys]
  · simp [process_instruction, hsig, hown]

/-- Concrete instance of claim C7's amended statement: a signing payer
with a wrong system-account key yields `IncorrectProgramId`. -/
theorem system_account_mismatch_aborts_witness :
    (process_instruction 1
        [payerEx, recvEx, recvEx, ⟨5, false, 0, [], 0⟩] [] acceptAll).1 =
      Except.error ProgramError.IncorrectProgramId :=
  system_account_mismatch_aborts 1 payerEx recvEx recvEx ⟨5, false, 0, [], 0⟩
    [] [] acceptAll rfl (by decide)

/-- Counterexample to claim C7 as stated: with the system-account slot
mismatched but the payer not signing, the call aborts with
`MissingRequiredSignature`, not `IncorrectProgramId`. -/
theorem system_account_mismatch_counterexample :
    (process_instruction 1
        [recvEx, payerEx, recvEx, ⟨5, false, 0, [], 0⟩] [] acceptAll).1 =
      Except.error ProgramError.MissingRequiredSignature ∧
    AccountInfo.key ⟨5, false, 0, [], 0⟩ ≠ SYSTEM_PROGRAM_ID ∧
    ProgramError.MissingRequiredSignature ≠ ProgramError.IncorrectProgramId :=
  ⟨rfl, by decide, by decide⟩

/-- Claim C8: serializing any u32 counter value and deserializing it
returns the same value, and deserializing any buffer whose length is not
exactly 4 bytes fails. -/
theorem greeting_record_roundtrip :
    (∀ c : Nat, c < 4294967296 →
      greetingTryFromSlice (u32ToLeBytes c) = some c) ∧
    (∀ bs : List Nat, bs.length ≠ 4 → greetingTryFromSlice bs = none) := by
  constructor
  · intro c hc
    rw [decode_encode, Nat.mod_eq_of_lt hc]
  · intro bs hbs
    exact greetingTryFromSlice_wrong_length bs hbs

/-- Concrete instance of claim C8: the counter value 7 survives the
round trip, and a 3-byte buffer is rejected. -/
theorem greeting_record_roundtrip_witness :
    greetingTryFromSlice (u32ToLeBytes 7) = some 7 ∧
    greetingTryFromSlice [1, 2, 3] = none :=
  ⟨greeting_record_roundtrip.1 7 (by norm_num),
   greeting_record_roundtrip.2 [1, 2, 3] (by decide)⟩

/-- Claim C9: whenever a call returns an error, the account list is
unchanged (no data write is performed) and at most the single in-flight
transfer request was issued — no side effect follows the failing
stage. -/
theorem failure_stops_side_effects (pid : Nat) (accounts : List AccountInfo)
    (d : List Nat) (host : Transfer → Except ProgramError Unit)
    (e : ProgramError)
    (h : (process_instruction pid accounts d host).1 = Except.error e) :
    (process_instruction pid accounts d host).2.2 = accounts ∧
    (process_instruction pid accounts d host).2.1.length ≤ 1 := by
  rcases accounts with _ | ⟨payer, _ | ⟨receiver, _ | ⟨program_acct, _ | ⟨system_acct, rest⟩⟩⟩⟩
  · simp [process_instruction]
  · simp [process_instruction]
  · simp [process_instruction]
  · simp [process_instruction]
  · by_cases h1 : payer.is_signer = false
    · simp [process_instruction, h1]
    · by_cases h2 : program_acct.owner = pid
      · by_cases h3 : system_acct.key = SYSTEM_PROGRAM_ID
        · rcases hh : host ⟨payer.key, receiver.key, 1000000000⟩ with e2 | u
          · simp [process_instruction, h1, h2, h3, hh]
          · rcases hg : greetingTryFromSlice program_acct.data with _ | c
            · simp [process_instruction, h1, h2, h3, hh, hg]
            · simp [process_instruction, h1, h2, h3, hh, hg] at h
        · simp [process_instruction, h1, h3]
      · simp [process_instruction, h1, h2]

/-- Concrete instance of claim C9: a failing one-account call leaves the
account list unchanged and issues no transfer. -/
theorem failure_stops_side_effects_witness :
    (process_instruction 1 [payerEx] [] acceptAll).2.2 = [payerEx] ∧
    (process_instruction 1 [payerEx] [] acceptAll).2.1.length ≤ 1 :=
  failure_stops_side_effects 1 [payerEx] [] acceptAll
    ProgramError.NotEnoughAccountKeys rfl

/-- Claim C10: the instruction payload has no effect — for any fixed
program id, account list and host, two calls with arbitrary payloads
return the same result, transfer requests and account mutations. -/
theorem payload_has_no_effect (pid : Nat) (accounts : List AccountInfo)
    (host : Transfer → Except ProgramError Unit) (d1 d2 : List Nat) :
    process_instruction pid accounts d1 host =
      process_instruction pid accounts d2 host := rfl

/-- Claim C2 (spec-modelled split variant): a split call with a signing
payer, the system account in place, `1 ≤ n ≤ 10` payees, a decodable
amount `A` and a host accepting every request succeeds, issuing one
transfer of `A / n` from the payer to each payee in list order; the
total distributed is `n * (A / n) ≤ A`, so the remainder is never part
of any transfer. -/
theorem split_each_payee_floor_share (payer system_acct : AccountInfo)
    (payees : List AccountInfo) (d : List Nat)
    (host : Transfer → Except ProgramError Unit) (A : Nat)
    (hsig : payer.is_signer = true) (hsys : system_acct.key = SYSTEM_PROGRAM_ID)
    (hn1 : 1 ≤ payees.length) (hn2 : payees.length ≤ 10)
    (hdec : decode_amount d = some A)
    (hhost : ∀ t, host t = Except.ok ()) :
    process_split (payer :: system_acct :: payees) d host =
      (Except.ok (),
        payees.map (fun p => ⟨payer.key, p.key, A / payees.length⟩)) ∧
    ((payees.map (fun p =>
        (⟨payer.key, p.key, A / payees.length⟩ : Transfer))).map
          Transfer.lamports).sum = payees.length * (A / payees.length) ∧
    payees.length * (A / payees.length) ≤ A := by
  have hne : payees ≠ [] := by
    intro h
    rw [h] at hn1
    simp at hn1
  have h10 : ¬ 10 < payees.length := by omega
  refine ⟨?_, ?_, ?_⟩
  · simp [process_split, hdec, hsig, hsys, hne, h10,
      execTransfers_accepted payer.key (A / payees.length) host hhost,
      List.map_map, Function.comp]
  · rw [List.map_map]
    exact sum_map_const payees (A / payees.length)
  · rw [Nat.mul_comm]
    exact Nat.div_mul_le_self A payees.length

/-- Concrete instance of claim C2 (the spec's Scenario A): amount
1,000,000,000 split across 3 payees gives each exactly 333,333,333 and
distributes 999,999,999 ≤ 1,000,000,000. -/
theorem split_each_payee_floor_share_witness :
    process_split
        [payerEx, sysEx, ⟨21, false, 0, [], 0⟩, ⟨22, false, 0, [], 0⟩,
          ⟨23, false, 0, [], 0⟩]
        [0, 202, 154, 59, 0, 0, 0, 0] acceptAll =
      (Except.ok (),
        [⟨10, 21, 333333333⟩, ⟨10, 22, 333333333⟩, ⟨10, 23, 333333333⟩]) ∧
    3 * 333333333 ≤ 1000000000 := by
  have h := split_each_payee_floor_share payerEx sysEx
    [⟨21, false, 0, [], 0⟩, ⟨22, false, 0, [], 0⟩, ⟨23, false, 0, [], 0⟩]
    [0, 202, 154, 59, 0, 0, 0, 0] acceptAll 1000000000
    rfl rfl (by decide) (by decide) rfl (fun _ => rfl)
  exact ⟨h.1, h.2.2⟩

/-- Claim C3 (spec-modelled split variant): a payload shorter than 8
bytes makes any split call abort with `InvalidInstructionData` and no
transfer or mutation; a payload of at least 8 bytes decodes to the
little-endian u64 read from bytes `[0,8)`, and a validated split call
transfers exactly that decoded amount divided by the payee count. -/
theorem split_amount_decode (accounts : List AccountInfo) :
    (∀ d : List Nat, ∀ host : Transfer → Except ProgramError Unit,
      d.length < 8 →
      process_split accounts d host =
        (Except.error ProgramError.InvalidInstructionData, [])) ∧
    (∀ b0 b1 b2 b3 b4 b5 b6 b7 : Nat, ∀ tail : List Nat,
      decode_amount (b0 :: b1 :: b2 :: b3 :: b4 :: b5 :: b6 :: b7 :: tail) =
        some (b0 + 256 * b1 + 65536 * b2 + 16777216 * b3 +
          4294967296 * b4 + 1099511627776 * b5 +
          281474976710656 * b6 + 72057594037927936 * b7)) ∧
    (∀ payer system_acct : AccountInfo, ∀ payees : List AccountInfo,
      ∀ d : List Nat, ∀ host : Transfer → Except ProgramError Unit, ∀ A : Nat,
      payer.is_signer = true → system_acct.key = SYSTEM_PROGRAM_ID →
      ¬ (payees.length < 1 ∨ 10 < payees.length) →
      decode_amount d = some A →
      process_split (payer :: system_acct :: payees) d host =
        execTransfers payer.key (payees.map AccountInfo.key)
          (A / payees.length) host) := by
  refine ⟨?_, ?_, ?_⟩
  · intro d host hd
    simp [process_split, decode_amount_short d hd]
  · intro b0 b1 b2 b3 b4 b5 b6 b7 tail
    rfl
  · intro payer system_acct payees d host A hsig hsys harity hdec
    have hne : payees ≠ [] := by
      intro h
      rw [h] at harity
      simp at harity
    have h10 : ¬ 10 < payees.length := by omega
    simp [process_split, hdec, hsig, hsys, hne, h10]

/-- Concrete instance of claim C3 (the spec's Scenario D): a 3-byte
payload aborts the split call with `InvalidInstructionData`, and the
8-byte payload `[1,0,0,0,0,0,0,0]` decodes to 1. -/
theorem split_amount_decode_witness :
    process_split [payerEx, sysEx, recvEx] [1, 2, 3] acceptAll =
      (Except.error ProgramError.InvalidInstructionData, []) ∧
    decode_amount [1, 0, 0, 0, 0, 0, 0, 0] = some 1 := by
  refine ⟨(split_amount_decode [payerEx, sysEx, recvEx]).1 [1, 2, 3] acceptAll
    (by decide), ?_⟩
  have h := (split_amount_decode []).2.1 1 0 0 0 0 0 0 0 []
  simpa using h

/-- Claim C6 (spec-modelled split variant): a split call whose payee
sub-list has length 0 or more than 10 aborts with
`NotEnoughAccountKeys` and issues no transfer (given that decoding and
the earlier validator stages pass, which run first in the spec's stage
order). -/
theorem split_payee_arity_aborts (payer system_acct : AccountInfo)
    (payees : List AccountInfo) (d : List Nat)
    (host : Transfer → Except ProgramError Unit) (A : Nat)
    (hdec : decode_amount d = some A)
    (hsig : payer.is_signer = true) (hsys : system_acct.key = SYSTEM_PROGRAM_ID)
    (hn : payees.length = 0 ∨ 10 < payees.length) :
    process_split (payer :: system_acct :: payees) d host =
      (Except.error ProgramError.NotEnoughAccountKeys, []) := by
  rcases hn with h0 | h10
  · simp [process_split, hdec, hsig, hsys, h0]
  · simp [process_split, hdec, hsig, hsys, h10]

/-- Concrete instance of claim C6: a split call with zero payees aborts
with `NotEnoughAccountKeys` and no transfer. -/
theorem split_payee_arity_aborts_witness :
    process_split [payerEx, sysEx] [1, 0, 0, 0, 0, 0, 0, 0] acceptAll =
      (Except.error ProgramError.NotEnoughAccountKeys, []) :=
  split_payee_arity_aborts payerEx sysEx [] [1, 0, 0, 0, 0, 0, 0, 0] acceptAll 1
    rfl rfl rfl (Or.inl rfl)

end HelloWorld
